import Mathlib

/-!
Verification of the gbocv2 central-server core (agent registry, job ledger,
liveness/health evaluator, event and tip engine) against its specification.

The Python services under `central-server/app/services` are shallowly embedded:
timestamps are rationals counting seconds, `datetime.utcnow()` becomes an
explicit `now : ℚ` argument, `uuid4()` becomes an explicit fresh-identifier
argument, and the SQLAlchemy session becomes an explicit record-store state
threaded through each operation.  Python `round(x, 2)` is embedded as
round-half-to-even at two decimal places over ℚ.
-/

/-- Round a rational to the nearest integer, ties to even (Python `round`). -/
def roundHalfEven (q : ℚ) : ℤ :=
  let f : ℤ := ⌊q⌋
  let r : ℚ := q - f
  if r < 1 / 2 then f
  else if 1 / 2 < r then f + 1
  else if f % 2 = 0 then f else f + 1

/-- Python `round(x, 2)`: two-decimal rounding, half to even. -/
def pyRound2 (q : ℚ) : ℚ := (roundHalfEven (q * 100) : ℚ) / 100

/-! ## Health score (`app/services/reports.py`, `calculate_health_score`) -/

/-- Embedding of `reports.calculate_health_score(agent, stats, performance, issues)`.
`last_seen` is `agent.last_seen`, `now` is `datetime.utcnow()`, `success_rate`
is `performance["success_rate"]`, `issues` is the issue list.  The Python body
starts at `score = 100`, applies the issue penalties, the proportional
low-success penalty, the online bonus (`agent.last_seen > now - 15 minutes`),
and returns `max(0, min(100, score))`. -/
def calculate_health_score (last_seen now success_rate : ℚ)
    (issues : List String) : ℚ :=
  let score : ℚ := 100
  let score := if "high_failure_rate" ∈ issues then score - 30 else score
  let score := if "not_reporting" ∈ issues then score - 40 else score
  let score := if "low_success_rate" ∈ issues then score - 20 else score
  let score := if success_rate < 80 then score - (80 - success_rate) * (1 / 2) else score
  let score := if now - 15 * 60 < last_seen then score + 10 else score
  max 0 (min 100 score)

/-- The health-score formula as the specification words it: 100, minus 30 for
`high_failure_rate`, minus 40 for `not_reporting`, minus 20 for
`low_success_rate`, additionally minus `(80 − success_rate) × 0.5` whenever
`success_rate < 80`, plus 10 if `last_seen` is within 15 minutes of `now`,
clamped to the interval `[0, 100]`. -/
def healthScoreSpec (last_seen now success_rate : ℚ)
    (issues : List String) : ℚ :=
  max 0 (min 100
    (100
      - (if "high_failure_rate" ∈ issues then (30 : ℚ) else 0)
      - (if "not_reporting" ∈ issues then (40 : ℚ) else 0)
      - (if "low_success_rate" ∈ issues then (20 : ℚ) else 0)
      - (if success_rate < 80 then (80 - success_rate) * (1 / 2) else 0)
      + (if now - last_seen < 15 * 60 then (10 : ℚ) else 0)))

lemma clamp01_bounds (x : ℚ) :
    0 ≤ max 0 (min 100 x) ∧ max 0 (min 100 x) ≤ 100 :=
  ⟨le_max_left 0 _, max_le (by norm_num) (min_le_left _ _)⟩

/-- C1: the computed health score agrees with the specification's formula and
always lies in [0, 100], for every issue set, every (possibly extreme)
success rate and every pair of timestamps. -/
theorem health_score_matches_spec_and_bounded
    (last_seen now success_rate : ℚ) (issues : List String) :
    calculate_health_score last_seen now success_rate issues
      = healthScoreSpec last_seen now success_rate issues
    ∧ 0 ≤ calculate_health_score last_seen now success_rate issues
    ∧ calculate_health_score last_seen now success_rate issues ≤ 100 := by
  have htime : (now - 15 * 60 < last_seen) ↔ (now - last_seen < 15 * 60) := by
    constructor <;> intro h <;> linarith
  refine ⟨?_, (clamp01_bounds _).1, (clamp01_bounds _).2⟩
  unfold calculate_health_score healthScoreSpec
  simp only [htime]
  split_ifs <;> ring_nf

/-! ## Data model (`app/models.py` rows as seen through the services) -/

/-- An `Agent` row.  Fields not read or written by any embedded operation
(`id`, `created_at`, `updated_at`) are elided. -/
structure Agent where
  hostname : String
  ip_address : String
  os : String
  agent_id : String
  last_seen : ℚ
  enabled : Bool
  config_hash : String := ""
deriving Repr, DecidableEq

/-- A `BackupJob` row as created by `agents.report_backup`. -/
structure BackupJob where
  agent_id : String
  start_time : ℚ
  end_time : Option ℚ
  status : String
  tool : String
  source : String
  destination : String
  size_bytes : ℚ := 0
  logs : String := ""
  error_message : Option String := none
deriving Repr, DecidableEq

/-- An `AgentConfig` row.  The JSON payload written by
`create_default_config` (server_url, heartbeat_interval, …) is opaque to
every claim, so only the owning `agent_id` is kept. -/
structure AgentConfig where
  agent_id : String
deriving Repr, DecidableEq

/-- A `SystemEvent` row as created by `events.create_event`.  The
`json.dumps` serialization of `details` is elided (the payload is opaque). -/
structure SystemEvent where
  category : String
  event_type : String
  description : String
  agent_id : Option String
  backup_job_id : Option ℕ
  related_id : Option String
  details : Option String
  priority : String
  timestamp : ℚ
deriving Repr, DecidableEq

/-- A `Notification` row as created by `notifications.send_notification`. -/
structure Notification where
  title : String
  message : String
  category : String
  priority : String
  related_id : Option String
  timestamp : ℚ
deriving Repr, DecidableEq

/-- The record store behind the SQLAlchemy session: one list per table, in
insertion order (the services read tables with unordered `first()` /
`count()` or explicit `order_by`). -/
structure DB where
  agents : List Agent := []
  jobs : List BackupJob := []
  configs : List AgentConfig := []
  events : List SystemEvent := []
  notifications : List Notification := []
deriving Repr, DecidableEq

/-- Mutate the first list element satisfying `p` (the ORM updates exactly the
row object returned by `first()`). -/
def updateFirst (p : α → Bool) (f : α → α) : List α → List α
  | [] => []
  | x :: xs => if p x then f x :: xs else x :: updateFirst p f xs

/-! ## Agent registry (`app/services/agents.py`) -/

/-- Embedding of `agents.get_agent`: first `Agent` row with the given `agent_id`. -/
def get_agent (db : DB) (agent_id : String) : Option Agent :=
  db.agents.find? (fun a => a.agent_id == agent_id)

/-- Embedding of `agents.get_agent_by_hostname`: first `Agent` row with the hostname. -/
def get_agent_by_hostname (db : DB) (hostname : String) : Option Agent :=
  db.agents.find? (fun a => a.hostname == hostname)

/-- The `agent_info` dict passed to `agents.create_agent`: `hostname` is
accessed with `[]` (required); `ip_address` and `os` with `.get` (optional). -/
structure AgentInfo where
  hostname : String
  ip_address : Option String := none
  os : Option String := none
deriving Repr, DecidableEq

/-- Embedding of `agents.create_default_config`: appends a config row for the agent. -/
def create_default_config (db : DB) (agent_id : String) : DB :=
  { db with configs := db.configs ++ [{ agent_id := agent_id }] }

/-- Embedding of `agents.create_agent(db, agent_info)`: upsert by hostname.  `now` stands
for `datetime.utcnow()` and `freshId` for `str(uuid4())`.  If a row with the
hostname exists it is updated in place (address, OS, last_seen) and returned;
otherwise a new row is appended with `enabled = true` and a default config
row is materialized.  No validation of `hostname` is performed. -/
def create_agent (db : DB) (info : AgentInfo) (now : ℚ) (freshId : String) :
    Agent × DB :=
  match get_agent_by_hostname db info.hostname with
  | some existing =>
      let updated : Agent :=
        { existing with
          ip_address := info.ip_address.getD existing.ip_address,
          os := info.os.getD existing.os,
          last_seen := now }
      (updated,
        { db with agents :=
            (updateFirst (fun a => a.hostname == info.hostname)
              (fun a =>
                { a with
                  ip_address := info.ip_address.getD a.ip_address,
                  os := info.os.getD a.os,
                  last_seen := now }) db.agents) })
  | none =>
      let agent : Agent :=
        { hostname := info.hostname,
          ip_address := info.ip_address.getD "",
          os := info.os.getD "",
          agent_id := freshId,
          last_seen := now,
          enabled := true }
      let db1 : DB := { db with agents := db.agents ++ [agent] }
      (agent, create_default_config db1 freshId)

/-- Embedding of `agents.update_agent_heartbeat`: `false` and an untouched store when the
agent is unknown; otherwise set its `last_seen` to `now` and return `true`. -/
def update_agent_heartbeat (db : DB) (agent_id : String) (now : ℚ) :
    Bool × DB :=
  match get_agent db agent_id with
  | none => (false, db)
  | some _ =>
      (true,
        { db with agents :=
            (updateFirst (fun a => a.agent_id == agent_id)
              (fun a => { a with last_seen := now }) db.agents) })

/-- The parsed `report` dict passed to `agents.report_backup` (the
`datetime.fromisoformat` parsing of the timestamp strings is elided: fields
arrive already as timestamps). -/
structure BackupReport where
  start_time : ℚ
  end_time : Option ℚ := none
  status : String
  tool : String
  source : String
  destination : String
  size_bytes : ℚ := 0
  logs : String := ""
  error_message : Option String := none
deriving Repr, DecidableEq

/-- Embedding of `agents.report_backup(db, agent_id, report)`: builds a `BackupJob` row
from the report and appends it.  The function never looks up the agent: the
row is persisted for whatever `agent_id` was passed. -/
def report_backup (db : DB) (agent_id : String) (report : BackupReport) :
    BackupJob × DB :=
  let job : BackupJob :=
    { agent_id := agent_id,
      start_time := report.start_time,
      end_time := report.end_time,
      status := report.status,
      tool := report.tool,
      source := report.source,
      destination := report.destination,
      size_bytes := report.size_bytes,
      logs := report.logs,
      error_message := report.error_message }
  (job, { db with jobs := db.jobs ++ [job] })

/-! ## Agent statistics (`app/services/agents.py`, `get_agent_stats`) -/

/-- Modelled from the spec: `settings.agent_heartbeat_timeout_minutes`
(`app/config.py` is not among the sources); the spec's default liveness
timeout τ is 15 minutes. -/
def agent_heartbeat_timeout_minutes : ℚ := 15

/-- The dict returned by `agents.get_agent_stats`. -/
structure AgentStats where
  agent_id : String
  hostname : String
  total_backups : ℕ
  success_backups : ℕ
  failed_backups : ℕ
  success_rate : ℚ
  last_backup : Option ℚ
  status : String
  last_seen : ℚ
deriving Repr, DecidableEq

/-- Start time of the most recent job (`order_by(start_time.desc()).first()`,
modelled as the maximal start time of the agent's jobs). -/
def latestStartTime (jobs : List BackupJob) : Option ℚ :=
  jobs.foldl
    (fun acc j =>
      match acc with
      | none => some j.start_time
      | some t => if t < j.start_time then some j.start_time else some t)
    none

/-- Embedding of `agents.get_agent_stats(db, agent_id)`: `none` when the agent is unknown;
otherwise all-time job counts, the guarded success rate
(`round((success/total*100) if total > 0 else 0, 2)`), and the
online/offline classification against `now − τ`. -/
def get_agent_stats (db : DB) (agent_id : String) (now : ℚ) :
    Option AgentStats :=
  match get_agent db agent_id with
  | none => none
  | some agent =>
      let agentJobs := db.jobs.filter (fun j => j.agent_id == agent_id)
      let total_backups := agentJobs.length
      let success_backups :=
        (agentJobs.filter (fun j => j.status == "success")).length
      let failed_backups :=
        (agentJobs.filter (fun j => j.status == "failed")).length
      let threshold := now - agent_heartbeat_timeout_minutes * 60
      some
        { agent_id := agent_id,
          hostname := agent.hostname,
          total_backups := total_backups,
          success_backups := success_backups,
          failed_backups := failed_backups,
          success_rate :=
            pyRound2 (if 0 < total_backups then
              (success_backups : ℚ) / total_backups * 100 else 0),
          last_backup := latestStartTime agentJobs,
          status := if threshold < agent.last_seen then "online" else "offline",
          last_seen := agent.last_seen }

/-! ## Agent performance (`app/services/agents.py`, `get_agent_performance`) -/

/-- One value of the `daily_stats` dict built by `get_agent_performance`. -/
structure DayStats where
  success : ℕ
  failed : ℕ
  total : ℕ
  duration : ℚ
  size : ℚ
deriving Repr, DecidableEq

/-- The loop body of `get_agent_performance` applied to one backup:
`total += 1`; `duration += (end_time - start_time).total_seconds()` only when
`end_time` is set; `size += size_bytes`; success/failed tallies by status. -/
def accDay (s : DayStats) (b : BackupJob) : DayStats :=
  { total := s.total + 1,
    duration := s.duration +
      (match b.end_time with
       | some e => e - b.start_time
       | none => 0),
    size := s.size + b.size_bytes,
    success := s.success + (if b.status == "success" then 1 else 0),
    failed := s.failed + (if b.status == "failed" then 1 else 0) }

/-- The zero-initialised `daily_stats[day]` entry. -/
def zeroDay : DayStats := ⟨0, 0, 0, 0, 0⟩

/-- Python `backup.start_time.date()`: the calendar day of a timestamp, modelled as
the number of whole days since the epoch. -/
def jobDay (b : BackupJob) : ℤ := ⌊b.start_time / 86400⌋

/-- Insert one backup into the `daily_stats` association list, updating the
entry of its day or appending a fresh one (Python dict insertion order). -/
def addJobToDaily (b : BackupJob) :
    List (ℤ × DayStats) → List (ℤ × DayStats)
  | [] => [(jobDay b, accDay zeroDay b)]
  | (k, s) :: rest =>
      if k = jobDay b then (k, accDay s b) :: rest
      else (k, s) :: addJobToDaily b rest

/-- Python `sum(stats["success"] for stats in daily_stats.values())`. -/
def sumSuccess (l : List (ℤ × DayStats)) : ℕ :=
  (l.map (fun p => p.2.success)).sum

/-- Python `sum(stats["total"] for stats in daily_stats.values())`. -/
def sumTotals (l : List (ℤ × DayStats)) : ℕ :=
  (l.map (fun p => p.2.total)).sum

/-- Python `sum(stats["duration"] for stats in daily_stats.values())`. -/
def sumDuration (l : List (ℤ × DayStats)) : ℚ :=
  (l.map (fun p => p.2.duration)).sum

/-- Python `sum(stats["size"] for stats in daily_stats.values())`. -/
def sumSize (l : List (ℤ × DayStats)) : ℚ :=
  (l.map (fun p => p.2.size)).sum

/-- The dict returned by `agents.get_agent_performance`. -/
structure AgentPerformance where
  daily_backups : List (ℤ × DayStats)
  success_rate : ℚ
  avg_duration : ℚ
  total_size_gb : ℚ
  total_backups : ℕ
deriving Repr, DecidableEq

/-- The query of `get_agent_performance`: the agent's jobs whose
`start_time` lies in the lookback window `start_time ≥ now − days`.
(Its `order_by(start_time)` only affects the listing order of
`daily_backups`; the embedding keeps the store's insertion order.) -/
def windowJobs (db : DB) (agent_id : String) (now days : ℚ) :
    List BackupJob :=
  let start_date := now - days * 86400
  db.jobs.filter
    (fun j => j.agent_id == agent_id && decide (start_date ≤ j.start_time))

/-- Embedding of `agents.get_agent_performance(db, agent_id, days)`: takes
the window query, groups it by calendar day, and aggregates.
`avg_duration` is
`round((total_duration / total_count) if total_count > 0 else 0, 2)` where
`total_count` counts every job in the window (finished or not) and
`total_duration` sums only the durations of jobs that have an `end_time`.
The all-zero dict is returned when the window is empty. -/
def get_agent_performance (db : DB) (agent_id : String) (now : ℚ)
    (days : ℚ) : AgentPerformance :=
  let backups := windowJobs db agent_id now days
  if backups.isEmpty then
    { daily_backups := [], success_rate := 0, avg_duration := 0,
      total_size_gb := 0, total_backups := 0 }
  else
    let daily := backups.foldl (fun acc b => addJobToDaily b acc) []
    let success_count := sumSuccess daily
    let total_count := sumTotals daily
    let total_duration := sumDuration daily
    let total_size := sumSize daily
    { daily_backups := daily,
      success_rate :=
        pyRound2 (if 0 < total_count then
          (success_count : ℚ) / total_count * 100 else 0),
      avg_duration :=
        pyRound2 (if 0 < total_count then
          total_duration / total_count else 0),
      total_size_gb := pyRound2 (total_size / 1024 ^ 3),
      total_backups := total_count }

/-! ## Events (`app/services/events.py`) and notifications -/

/-- The `EVENT_CATEGORIES` vocabulary table. -/
def EVENT_CATEGORIES : List (String × List String) :=
  [("agent", ["register", "heartbeat", "config_update", "offline", "online"]),
   ("backup", ["start", "success", "failed", "warning"]),
   ("system", ["startup", "shutdown", "error", "maintenance"]),
   ("security", ["login", "logout", "unauthorized", "config_change"])]

/-- The `EVENT_PRIORITIES` ranking table. -/
def EVENT_PRIORITIES : List (String × ℕ) :=
  [("low", 1), ("medium", 2), ("high", 3), ("critical", 4)]

/-- Embedding of `notifications.send_notification`: appends a `Notification` row (the
optional email dispatch is external I/O and elided; `user_id` and the `read`
flag are unused by every embedded caller). -/
def send_notification (db : DB) (title message category priority : String)
    (related_id : Option String) (now : ℚ) : DB :=
  { db with notifications := db.notifications ++
      [{ title := title, message := message, category := category,
         priority := priority, related_id := related_id, timestamp := now }] }

/-- The `message` local of `events.send_event_notification`: for category
`agent` it is bound only for event types `offline`/`failed`, and for category
`backup` only for `failed`; any other pair in those categories leaves
`message` unbound and the function raises `NameError` (returned as `none`
here).  Python renders a `None` agent id as the string `None` inside the
f-string. -/
def event_notification_message (e : SystemEvent) : Option String :=
  if e.category == "agent" then
    if e.event_type == "offline" then
      some ("Agente " ++ e.agent_id.getD "None" ++
        " está offline há mais de 15 minutos")
    else if e.event_type == "failed" then
      some ("Backup falhou no agente " ++ e.agent_id.getD "None")
    else none
  else if e.category == "backup" then
    if e.event_type == "failed" then
      some ("Backup falhou no agente " ++ e.agent_id.getD "None")
    else none
  else some e.description

/-- Python `event.agent_id or event.related_id`: the empty string is falsy. -/
def agentIdOrRelated (e : SystemEvent) : Option String :=
  match e.agent_id with
  | some s => if s.isEmpty then e.related_id else some s
  | none => e.related_id

/-- Embedding of `events.send_event_notification`: builds the title and message and hands
them to `send_notification`; `none` models the `NameError` raised when the
`message` local was never bound. -/
def send_event_notification (db : DB) (e : SystemEvent) (now : ℚ) :
    Option DB :=
  match event_notification_message e with
  | none => none
  | some msg =>
      some (send_notification db
        ("Evento " ++ e.priority.toUpper ++ ": " ++ e.event_type)
        msg e.category e.priority (agentIdOrRelated e) now)

/-- Embedding of `events.create_event`: validates `category`, then `event_type` against
the category's vocabulary, then `priority`, raising `ValueError` (the
`Except.error` branch of the first component) before anything is persisted;
on success the event row is appended, and for priority ≥ high the
notification side effect runs after the commit (so its `NameError`, if any,
propagates with the event already stored).  The second component is the
store state after the call, whether or not an exception propagated. -/
def create_event (db : DB) (category event_type description : String)
    (agent_id : Option String) (backup_job_id : Option ℕ)
    (related_id : Option String) (details : Option String)
    (priority : String) (now : ℚ) :
    Except String SystemEvent × DB :=
  match EVENT_CATEGORIES.lookup category with
  | none => (Except.error ("Categoria de evento inválida: " ++ category), db)
  | some allowed =>
      if ¬ allowed.contains event_type then
        (Except.error ("Tipo de evento inválido para categoria " ++
          category ++ ": " ++ event_type), db)
      else
        match EVENT_PRIORITIES.lookup priority with
        | none => (Except.error ("Prioridade inválida: " ++ priority), db)
        | some rank =>
            let event : SystemEvent :=
              { category := category, event_type := event_type,
                description := description, agent_id := agent_id,
                backup_job_id := backup_job_id, related_id := related_id,
                details := details, priority := priority, timestamp := now }
            let db1 : DB := { db with events := db.events ++ [event] }
            if 3 ≤ rank then
              match send_event_notification db1 event now with
              | none => (Except.error "NameError: message", db1)
              | some db2 => (Except.ok event, db2)
            else (Except.ok event, db1)

/-! ## Tip engine (`app/services/tips.py`) -/

/-- A metric value: the Python metrics dict holds numbers and strings. -/
inductive MetricValue where
  | num (q : ℚ)
  | str (s : String)
deriving Repr, DecidableEq

/-- One condition entry of a rule: an operator and a comparison value. -/
structure MetricCond where
  operator : String
  value : MetricValue
deriving Repr, DecidableEq

/-- A remediation suggestion of a rule (its long `description` text is
elided; no embedded computation reads it). -/
structure Solution where
  title : String
  priority : String
deriving Repr, DecidableEq

/-- One entry of `TIPS_DATABASE` (the `resources` links are elided; no
embedded computation reads them). -/
structure TipRule where
  id : String
  title : String
  category : String
  metrics : List (String × MetricCond)
  solutions : List Solution
deriving Repr, DecidableEq

/-- The static `TIPS_DATABASE` rule table of `tips.py`. -/
def TIPS_DATABASE : List TipRule :=
  [{ id := "backup_slow_performance",
     title := "Melhorar Performance de Backup Lento",
     category := "agent",
     metrics :=
       [("avg_duration_seconds", ⟨">", .num 3600⟩),
        ("success_rate", ⟨"<", .num 90⟩)],
     solutions :=
       [⟨"Otimizar Exclusões", "high"⟩,
        ⟨"Ajustar Compressão", "medium"⟩,
        ⟨"Verificar Conexão de Rede", "medium"⟩] },
   { id := "backup_high_failure_rate",
     title := "Reduzir Taxa de Falhas nos Backups",
     category := "agent",
     metrics :=
       [("success_rate", ⟨"<", .num 80⟩),
        ("failed_backups", ⟨">", .num 3⟩)],
     solutions :=
       [⟨"Verificar Permissões de Acesso", "critical"⟩,
        ⟨"Aumentar Timeout", "high"⟩,
        ⟨"Verificar Espaço em Disco", "critical"⟩] },
   { id := "agent_offline",
     title := "Agente Offline por Longo Período",
     category := "agent",
     metrics :=
       [("status", ⟨"==", .str "offline"⟩),
        ("last_seen", ⟨"<", .str "1h"⟩)],
     solutions :=
       [⟨"Verificar Serviço do Agente", "critical"⟩,
        ⟨"Verificar Conectividade de Rede", "high"⟩,
        ⟨"Verificar Firewall", "high"⟩] },
   { id := "storage_low_space",
     title := "Espaço em Disco Insuficiente",
     category := "system",
     metrics :=
       [("storage_usage_percent", ⟨">", .num 90⟩)],
     solutions :=
       [⟨"Aumentar Capacidade de Storage", "critical"⟩,
        ⟨"Limpar Backups Antigos", "high"⟩,
        ⟨"Otimizar Deduplicação", "medium"⟩] }]

/-- Duration-string parsing of `analyze_agent_health`: a trailing `h` means
hours, a trailing `m` minutes, otherwise seconds.  The Python `float(...)`
literal parsing is modelled for the natural-number literals that occur in
the rule table (only `"1h"` does). -/
def durationToSeconds (s : String) : ℚ :=
  if s.endsWith "h" then ((s.dropRight 1).toNat?.getD 0 : ℚ) * 3600
  else if s.endsWith "m" then ((s.dropRight 1).toNat?.getD 0 : ℚ) * 60
  else ((s.toNat?.getD 0 : ℚ))

/-- Numeric view of a metric value (the numeric comparison branch of the
matcher is only ever reached with numeric values for the given rule table). -/
def mvNum : MetricValue → ℚ
  | .num q => q
  | .str _ => 0

/-- Whether a metric value is a string (`isinstance(..., str)`). -/
def mvIsStr : MetricValue → Bool
  | .num _ => false
  | .str _ => true

/-- The per-metric check inside the `analyze_agent_health` rule loop:
a special branch for `last_seen` with a string-typed condition value
(duration comparison against `now − last_seen`), a branch for `status`
(`==` / `!=`), and a numeric branch (`>`, `<`, `==`); an operator a branch
does not handle leaves the match flag untouched (hence `true` here). -/
def metricMatches (now : ℚ) (metricName : String) (cond : MetricCond)
    (mv : MetricValue) : Bool :=
  if metricName == "last_seen" && mvIsStr cond.value then
    let dur := durationToSeconds
      (match cond.value with | .str s => s | .num _ => "")
    let actual := now - mvNum mv
    if cond.operator == "<" then decide (actual < dur)
    else if cond.operator == ">" then decide (dur < actual)
    else true
  else if metricName == "status" then
    if cond.operator == "==" then mv == cond.value
    else if cond.operator == "!=" then mv != cond.value
    else true
  else
    if cond.operator == ">" then decide (mvNum cond.value < mvNum mv)
    else if cond.operator == "<" then decide (mvNum mv < mvNum cond.value)
    else if cond.operator == "==" then mv == cond.value
    else true

/-- A rule matches when every one of its metric conditions names a metric
present in the snapshot and that metric passes its check; a condition on a
metric absent from the snapshot fails the whole rule (fail-closed). -/
def ruleMatches (now : ℚ) (metrics : List (String × MetricValue))
    (conds : List (String × MetricCond)) : Bool :=
  conds.all (fun p =>
    match metrics.lookup p.1 with
    | none => false
    | some mv => metricMatches now p.1 p.2 mv)

/-- Python `max` over the solution priority strings, i.e. the LEXICOGRAPHIC
maximum of the strings — not the maximum under the semantic ordering
low < medium < high < critical. -/
def pyStrMax : List String → String
  | [] => ""
  | x :: xs => xs.foldl (fun m s => if m < s then s else m) x

/-- A tip dict as produced by the analyzers. -/
structure Tip where
  id : String
  title : String
  description : String
  solutions : List Solution
  priority : String
  agent_id : Option String := none
  system_wide : Bool := false
deriving Repr, DecidableEq

/-- The rule loop of `analyze_agent_health` over a prepared metrics dict:
every agent-category rule whose conditions all hold yields a tip whose
`priority` is `max(sol["priority"] for sol in tip["solutions"])`. -/
def agentApplicableTips (now : ℚ)
    (metrics : List (String × MetricValue)) (agent_id : String) : List Tip :=
  (TIPS_DATABASE.filter
    (fun t => t.category == "agent" && ruleMatches now metrics t.metrics)).map
    (fun t =>
      { id := t.id, title := t.title,
        description :=
          "Soluções recomendadas para melhorar a performance do seu agente",
        solutions := t.solutions,
        priority := pyStrMax (t.solutions.map (fun s => s.priority)),
        agent_id := some agent_id })

/-- The metrics dict prepared by `analyze_agent_health` from the stats and
performance of the agent; `offline_duration` is appended when the agent is
offline.  The Python dict stores `last_seen` as an ISO string and parses it
back in the matcher; the embedding keeps the timestamp. -/
def prepAgentMetrics (now : ℚ) (stats : AgentStats)
    (perf : AgentPerformance) : List (String × MetricValue) :=
  let base : List (String × MetricValue) :=
    [("success_rate", .num perf.success_rate),
     ("avg_duration_seconds", .num perf.avg_duration),
     ("failed_backups", .num (stats.failed_backups : ℚ)),
     ("total_backups", .num (stats.total_backups : ℚ)),
     ("status", .str stats.status),
     ("last_seen", .num stats.last_seen)]
  if stats.status == "offline" then
    base ++ [("offline_duration", .num (now - stats.last_seen))]
  else base

/-- Embedding of `tips.analyze_agent_health(db, agent_id)`: empty for an unknown agent
(`get_agent_stats` returns `None`, which is falsy; the performance dict is
always truthy), otherwise the applicable agent-category tips. -/
def analyze_agent_health (db : DB) (agent_id : String) (now : ℚ) :
    List Tip :=
  match get_agent_stats db agent_id now with
  | none => []
  | some stats =>
      let perf := get_agent_performance db agent_id now 7
      agentApplicableTips now (prepAgentMetrics now stats perf) agent_id

/-! ## System overview (`app/services/stats.py`) and system tips -/

/-- The nested `storage` dict of the system overview. -/
structure StorageInfo where
  capacity_gb : ℚ
  used_gb : ℚ
  free_gb : ℚ
  usage_percent : ℚ
deriving Repr, DecidableEq

/-- The dict returned by `stats.get_system_overview`. -/
structure SystemOverview where
  total_agents : ℕ
  online_agents : ℕ
  total_backups : ℕ
  success_rate : ℚ
  failed_backups : ℕ
  running_backups : ℕ
  total_size_gb : ℚ
  daily_growth_gb : ℚ
  storage : StorageInfo
deriving Repr, DecidableEq

/-- Embedding of `stats.get_system_overview(db)`: fleet counts, the guarded
overall success rate, total stored size, average daily growth over the last
7 days, and the simulated 1 TB storage-capacity figures. -/
def get_system_overview (db : DB) (now : ℚ) : SystemOverview :=
  let total_agents := db.agents.length
  let online_agents :=
    (db.agents.filter (fun a => decide (now - 15 * 60 < a.last_seen))).length
  let total_backups := db.jobs.length
  let success_backups := (db.jobs.filter (fun j => j.status == "success")).length
  let failed_backups := (db.jobs.filter (fun j => j.status == "failed")).length
  let running_backups := (db.jobs.filter (fun j => j.status == "running")).length
  let success_rate :=
    pyRound2 (if 0 < total_backups then
      (success_backups : ℚ) / total_backups * 100 else 0)
  let total_size_bytes := (db.jobs.map (fun j => j.size_bytes)).sum
  let total_size_gb := pyRound2 (total_size_bytes / 1024 ^ 3)
  let last_week := now - 7 * 86400
  let backups_last_week :=
    db.jobs.filter (fun j => decide (last_week ≤ j.start_time))
  let daily_growth_gb :=
    if backups_last_week.isEmpty then 0
    else pyRound2 (((backups_last_week.map (fun j => j.size_bytes)).sum / 7)
      / 1024 ^ 3)
  let storage_capacity_gb : ℚ := 1000
  let used_storage_gb := total_size_gb
  { total_agents := total_agents, online_agents := online_agents,
    total_backups := total_backups, success_rate := success_rate,
    failed_backups := failed_backups, running_backups := running_backups,
    total_size_gb := total_size_gb, daily_growth_gb := daily_growth_gb,
    storage :=
      { capacity_gb := storage_capacity_gb,
        used_gb := used_storage_gb,
        free_gb := storage_capacity_gb - used_storage_gb,
        usage_percent :=
          pyRound2 (used_storage_gb / storage_capacity_gb * 100) } }

/-- The rule loop of `analyze_system_health` over the system metrics: only
system-category rules, only the `>` and `<` operators (any other operator
leaves the match flag untouched), absent metrics fail the rule. -/
def systemApplicableTips (metrics : List (String × MetricValue)) : List Tip :=
  (TIPS_DATABASE.filter
    (fun t => t.category == "system" && t.metrics.all (fun p =>
      match metrics.lookup p.1 with
      | none => false
      | some mv =>
          if p.2.operator == ">" then decide (mvNum p.2.value < mvNum mv)
          else if p.2.operator == "<" then decide (mvNum mv < mvNum p.2.value)
          else true))).map
    (fun t =>
      { id := t.id, title := t.title,
        description :=
          "Soluções recomendadas para melhorar a saúde do sistema",
        solutions := t.solutions,
        priority := pyStrMax (t.solutions.map (fun s => s.priority)),
        system_wide := true })

/-- Exceptions that escape the tip service. -/
inductive PyError where
  | attributeError (module attr : String)
deriving Repr, DecidableEq

/-- The top-level names bound in the module `app.services.agents` — its
imports and its function definitions.  Python resolves the attribute access
`agents.X` against exactly these names and raises `AttributeError` for any
other `X`. -/
def agentsModuleNames : List String :=
  ["json", "logging", "datetime", "timedelta", "List", "Dict", "Any",
   "Optional", "uuid4", "Session", "and_", "or_", "func", "models",
   "schemas", "settings", "helpers", "logger",
   "get_agent", "get_agent_by_hostname", "get_agents", "create_agent",
   "create_default_config", "update_agent", "update_agent_config",
   "update_agent_heartbeat", "get_agent_config", "report_backup",
   "get_agent_stats", "get_agent_performance"]

/-- Embedding of `tips.analyze_system_health(db)`.  Its first statement is
`agents.get_system_overview(db)` — an attribute access on the `agents`
module.  When the name resolves, the overview feeds the system-rule loop
(that computation is `stats.get_system_overview`, the only definition of
that name in the repository); when it does not, Python raises
`AttributeError` before any rule is evaluated. -/
def analyze_system_health (db : DB) (now : ℚ) : Except PyError (List Tip) :=
  if agentsModuleNames.contains "get_system_overview" then
    let overview := get_system_overview db now
    let metrics : List (String × MetricValue) :=
      [("storage_usage_percent", .num overview.storage.usage_percent),
       ("total_agents", .num (overview.total_agents : ℚ)),
       ("online_agents", .num (overview.online_agents : ℚ)),
       ("success_rate", .num overview.success_rate)]
    Except.ok (systemApplicableTips metrics)
  else Except.error (.attributeError "app.services.agents" "get_system_overview")

/-- Embedding of `agents.get_agents(db, skip, limit, enabled)`: optional
enabled filter, then offset/limit pagination. -/
def get_agents (db : DB) (skip : ℕ) (limit : ℕ) (enabled : Option Bool) :
    List Agent :=
  let query := match enabled with
    | none => db.agents
    | some e => db.agents.filter (fun a => a.enabled == e)
  (query.drop skip).take limit

/-- The de-duplication key of `get_all_applicable_tips`:
`tip["id"] + (tip.get("agent_id", "") if tip.get("system_wide") else tip["agent_id"])`. -/
def tipKey (t : Tip) : String :=
  t.id ++ (if t.system_wide then t.agent_id.getD "" else t.agent_id.getD "")

/-- Insert into the `unique_tips` dict: an existing key keeps its position
and takes the new value, a new key is appended (Python dict semantics). -/
def upsertTip (k : String) (v : Tip) :
    List (String × Tip) → List (String × Tip)
  | [] => [(k, v)]
  | (k', v') :: rest =>
      if k' == k then (k', v) :: rest else (k', v') :: upsertTip k v rest

/-- The priority ranking used by the final sort of
`get_all_applicable_tips` (a dict lookup in Python; every produced tip
carries one of the four keys). -/
def priorityRank (p : String) : ℕ :=
  ([("critical", 4), ("high", 3), ("medium", 2), ("low", 1)].lookup p).getD 0

/-- Embedding of `tips.get_all_applicable_tips(db)`: system tips first (so
the `AttributeError` of `analyze_system_health` always propagates before any
agent tip is computed), then per-agent tips over the default `get_agents`
page, dict-based de-duplication, and a stable sort by descending priority
rank. -/
def get_all_applicable_tips (db : DB) (now : ℚ) : Except PyError (List Tip) := do
  let system_tips ← analyze_system_health db now
  let agent_tips :=
    ((get_agents db 0 100 none).map
      (fun a => analyze_agent_health db a.agent_id now)).flatten
  let tips := system_tips ++ agent_tips
  let unique := tips.foldl (fun acc t => upsertTip (tipKey t) t acc) []
  pure ((unique.map (fun p => p.2)).mergeSort
    (fun a b => priorityRank b.priority ≤ priorityRank a.priority))

/-! ## Aggregation lemmas for the daily grouping -/

/-- Duration contributed by one job to the daily totals: `end − start` when
finished, nothing (0) when still running. -/
def jobDuration (b : BackupJob) : ℚ :=
  match b.end_time with
  | some e => e - b.start_time
  | none => 0

lemma accDay_total (s : DayStats) (b : BackupJob) :
    (accDay s b).total = s.total + 1 := rfl

lemma accDay_duration (s : DayStats) (b : BackupJob) :
    (accDay s b).duration = s.duration + jobDuration b := by
  cases h : b.end_time <;> simp [accDay, jobDuration, h]

lemma sumTotals_addJobToDaily (b : BackupJob) (l : List (ℤ × DayStats)) :
    sumTotals (addJobToDaily b l) = sumTotals l + 1 := by
  induction l with
  | nil => simp [addJobToDaily, sumTotals, accDay, zeroDay]
  | cons hd tl ih =>
      obtain ⟨k, s⟩ := hd
      by_cases hk : k = jobDay b
      · simp [addJobToDaily, hk, sumTotals, accDay_total]
        omega
      · simp only [addJobToDaily, if_neg hk, sumTotals, List.map_cons,
          List.sum_cons] at *
        omega

lemma sumDuration_addJobToDaily (b : BackupJob) (l : List (ℤ × DayStats)) :
    sumDuration (addJobToDaily b l) = sumDuration l + jobDuration b := by
  induction l with
  | nil => simp [addJobToDaily, sumDuration, accDay_duration, zeroDay]
  | cons hd tl ih =>
      obtain ⟨k, s⟩ := hd
      by_cases hk : k = jobDay b
      · simp [addJobToDaily, hk, sumDuration, accDay_duration]
        ring
      · simp only [addJobToDaily, if_neg hk, sumDuration, List.map_cons,
          List.sum_cons] at *
        linarith

lemma sumTotals_fold (l : List BackupJob) :
    ∀ acc, sumTotals (l.foldl (fun acc b => addJobToDaily b acc) acc)
      = sumTotals acc + l.length := by
  induction l with
  | nil => intro acc; simp
  | cons b tl ih =>
      intro acc
      rw [List.foldl_cons, ih, sumTotals_addJobToDaily, List.length_cons]
      omega

lemma sumDuration_fold (l : List BackupJob) :
    ∀ acc, sumDuration (l.foldl (fun acc b => addJobToDaily b acc) acc)
      = sumDuration acc + (l.map jobDuration).sum := by
  induction l with
  | nil => intro acc; simp
  | cons b tl ih =>
      intro acc
      rw [List.foldl_cons, ih, sumDuration_addJobToDaily, List.map_cons,
        List.sum_cons]
      ring

/-! ## C2: average duration over the lookback window -/

/-- The average duration exactly as the specification words it: the mean of
`(end_time − start_time)` in seconds over the window jobs that have an
`end_time`; jobs still running are excluded from the mean, not treated as
zero-duration entries. -/
def specAvgDuration (jobs : List BackupJob) : ℚ :=
  let fin := jobs.filter (fun j => j.end_time.isSome)
  if fin.isEmpty then 0 else (fin.map jobDuration).sum / (fin.length : ℚ)

/-- A finished job: 10 seconds of duration. -/
def jobFinC2 : BackupJob :=
  { agent_id := "a1", start_time := 0, end_time := some 10,
    status := "success", tool := "robocopy", source := "C:/data",
    destination := "E:/bk" }

/-- A still-running job: no `end_time`. -/
def jobRunC2 : BackupJob :=
  { agent_id := "a1", start_time := 20, end_time := none,
    status := "running", tool := "robocopy", source := "C:/data",
    destination := "E:/bk" }

/-- A store with one finished (10 s) and one running job for agent `a1`. -/
def dbC2 : DB := { jobs := [jobFinC2, jobRunC2] }

/-- C2 counterexample: with one finished job of 10 s and one running job in
the window, the code returns an average duration of 5 (the running job is
counted in the divisor), while the mean over the jobs that have an
`end_time` is 10 — the claim as stated is false on the code. -/
theorem avg_duration_claim_counterexample :
    (get_agent_performance dbC2 "a1" 100 7).avg_duration = 5
    ∧ specAvgDuration (windowJobs dbC2 "a1" 100 7) = 10
    ∧ (get_agent_performance dbC2 "a1" 100 7).avg_duration
        ≠ specAvgDuration (windowJobs dbC2 "a1" 100 7) := by
  have h1 : (get_agent_performance dbC2 "a1" 100 7).avg_duration = 5 := by
    norm_num [get_agent_performance, windowJobs, dbC2, jobFinC2, jobRunC2,
      addJobToDaily, jobDay, accDay, zeroDay, sumTotals, sumSuccess,
      sumDuration, sumSize, pyRound2, roundHalfEven, List.filter]
  have h2 : specAvgDuration (windowJobs dbC2 "a1" 100 7) = 10 := by
    norm_num [specAvgDuration, windowJobs, dbC2, jobFinC2, jobRunC2,
      List.filter, jobDuration]
  refine ⟨h1, h2, ?_⟩
  rw [h1, h2]
  norm_num

/-- C2 amended: for a non-empty window, `avg_duration` is the rounded
quotient of the summed durations of the *finished* window jobs by the count
of *all* window jobs — running jobs contribute zero to the numerator but are
counted in the denominator (for an empty window the result is 0). -/
theorem avg_duration_divides_by_all_window_jobs
    (db : DB) (agent_id : String) (now days : ℚ)
    (h : windowJobs db agent_id now days ≠ []) :
    (get_agent_performance db agent_id now days).avg_duration
      = pyRound2 (((windowJobs db agent_id now days).map jobDuration).sum
          / ((windowJobs db agent_id now days).length : ℚ)) := by
  have hlen : 0 < (windowJobs db agent_id now days).length :=
    List.length_pos.mpr h
  have hne : (windowJobs db agent_id now days).isEmpty = false := by
    cases hw : windowJobs db agent_id now days with
    | nil => exact absurd hw h
    | cons x xs => rfl
  have hT : sumTotals ((windowJobs db agent_id now days).foldl
      (fun acc b => addJobToDaily b acc) [])
      = (windowJobs db agent_id now days).length := by
    simpa [sumTotals] using
      sumTotals_fold (windowJobs db agent_id now days) []
  have hD : sumDuration ((windowJobs db agent_id now days).foldl
      (fun acc b => addJobToDaily b acc) [])
      = ((windowJobs db agent_id now days).map jobDuration).sum := by
    simpa [sumDuration] using
      sumDuration_fold (windowJobs db agent_id now days) []
  unfold get_agent_performance
  simp only [hne, Bool.false_eq_true, if_false, hT, hD]
  rw [if_pos hlen]

/-- C2 amended, witness: the amended statement evaluated on the concrete
two-job store. -/
theorem avg_duration_divides_by_all_window_jobs_witness :
    (get_agent_performance dbC2 "a1" 100 7).avg_duration
      = pyRound2 (((windowJobs dbC2 "a1" 100 7).map jobDuration).sum
          / ((windowJobs dbC2 "a1" 100 7).length : ℚ)) :=
  avg_duration_divides_by_all_window_jobs dbC2 "a1" 100 7 (by
    norm_num [windowJobs, dbC2, jobFinC2, jobRunC2, List.filter]
    exact List.cons_ne_nil _ _)

/-! ## C3 and C4: missing registration and validation checks -/

/-- An empty record store. -/
def dbEmpty : DB := {}

/-- A parsed backup report used as concrete input. -/
def rptC3 : BackupReport :=
  { start_time := 0, end_time := some 30, status := "success",
    tool := "restic", source := "C:/data", destination := "E:/bk" }

/-- C3 counterexample: on an empty store, `ghost` names no Agent, yet
`report_backup` persists a `BackupJob` carrying `agent_id = "ghost"` and
raises nothing — the claimed `UnknownAgent` failure does not exist. -/
theorem report_backup_unknown_agent_counterexample :
    get_agent dbEmpty "ghost" = none
    ∧ (report_backup dbEmpty "ghost" rptC3).2.jobs.length = 1
    ∧ (report_backup dbEmpty "ghost" rptC3).1.agent_id = "ghost" :=
  ⟨rfl, rfl, rfl⟩

/-- C3 amended: `report_backup` never consults the agent registry: for every
store and every `agent_id` — registered or not — it appends exactly one
`BackupJob` row carrying that `agent_id` and touches no other table. -/
theorem report_backup_never_checks_agent
    (db : DB) (agent_id : String) (report : BackupReport) :
    (report_backup db agent_id report).2
      = { db with jobs := db.jobs ++ [(report_backup db agent_id report).1] }
    ∧ (report_backup db agent_id report).1.agent_id = agent_id
    ∧ (report_backup db agent_id report).2.agents = db.agents :=
  ⟨rfl, rfl, rfl⟩

/-- Registration input with an empty hostname. -/
def infoC4 : AgentInfo := { hostname := "" }

/-- C4 counterexample: registering the empty hostname on an empty store
persists a new Agent row and a default configuration row instead of failing
with a `ValidationError`. -/
theorem register_empty_hostname_counterexample :
    get_agent_by_hostname dbEmpty "" = none
    ∧ (create_agent dbEmpty infoC4 0 "id-1").2.agents.length = 1
    ∧ (create_agent dbEmpty infoC4 0 "id-1").2.configs.length = 1
    ∧ (create_agent dbEmpty infoC4 0 "id-1").1.hostname = "" :=
  ⟨rfl, rfl, rfl, rfl⟩

/-- C4 amended: `create_agent` performs no hostname validation: whenever no
agent with the requested hostname exists — the empty hostname included — it
persists a new Agent row (with that very hostname) and a default
configuration row. -/
theorem create_agent_accepts_any_hostname
    (db : DB) (info : AgentInfo) (now : ℚ) (freshId : String)
    (h : get_agent_by_hostname db info.hostname = none) :
    (create_agent db info now freshId).2.agents
      = db.agents ++ [(create_agent db info now freshId).1]
    ∧ (create_agent db info now freshId).2.configs
      = db.configs ++ [{ agent_id := freshId }]
    ∧ (create_agent db info now freshId).1.hostname = info.hostname := by
  unfold create_agent
  rw [h]
  exact ⟨rfl, rfl, rfl⟩

/-- C4 amended, witness: the empty hostname on the empty store. -/
theorem create_agent_accepts_any_hostname_witness :
    (create_agent dbEmpty infoC4 0 "id-1").2.agents
      = dbEmpty.agents ++ [(create_agent dbEmpty infoC4 0 "id-1").1]
    ∧ (create_agent dbEmpty infoC4 0 "id-1").2.configs
      = dbEmpty.configs ++ [{ agent_id := "id-1" }]
    ∧ (create_agent dbEmpty infoC4 0 "id-1").1.hostname = infoC4.hostname :=
  create_agent_accepts_any_hostname dbEmpty infoC4 0 "id-1" rfl

/-! ## C5: event vocabulary enforcement -/

/-- Whether the `(category, event_type)` pair belongs to the fixed
per-category vocabulary table. -/
def vocabOK (category event_type : String) : Bool :=
  match EVENT_CATEGORIES.lookup category with
  | none => false
  | some allowed => allowed.contains event_type

/-- C5: a `(category, event_type)` pair outside the vocabulary table makes
`create_event` raise (return the `ValueError` branch) with the store left
exactly as it was — no `SystemEvent` row is created and the pair is never
coerced into a valid one. -/
theorem create_event_rejects_invalid_pair
    (db : DB) (category event_type description : String)
    (agent_id : Option String) (backup_job_id : Option ℕ)
    (related_id : Option String) (details : Option String)
    (priority : String) (now : ℚ)
    (h : vocabOK category event_type = false) :
    (create_event db category event_type description agent_id backup_job_id
        related_id details priority now).2 = db
    ∧ ∀ e, (create_event db category event_type description agent_id
        backup_job_id related_id details priority now).1 ≠ Except.ok e := by
  unfold vocabOK at h
  unfold create_event
  cases hc : EVENT_CATEGORIES.lookup category with
  | none => simp
  | some allowed =>
      rw [hc] at h
      have h' : ¬ event_type ∈ allowed := by simpa using h
      simp [h']

/-- C5 witness: the spec's scenario, category `agent` with event type
`unknown_type`, on the empty store. -/
theorem create_event_rejects_invalid_pair_witness :
    (create_event dbEmpty "agent" "unknown_type" "d" none none none none
        "medium" 0).2 = dbEmpty
    ∧ ∀ e, (create_event dbEmpty "agent" "unknown_type" "d" none none none
        none "medium" 0).1 ≠ Except.ok e :=
  create_event_rejects_invalid_pair dbEmpty "agent" "unknown_type" "d"
    none none none none "medium" 0 (by decide)

/-! ## C6: tip priority -/

/-- The maximum of a list of priority labels under the ordering
low < medium < high < critical (the ranking the tip sort itself uses) —
this is what the specification means by "max priority". -/
def specMaxPriority : List String → String
  | [] => ""
  | x :: xs =>
      xs.foldl (fun m s => if priorityRank m < priorityRank s then s else m) x

/-- One backup job of agent `ag1` for the C6 store. -/
def mkJobC6 (i : ℕ) (st : String) : BackupJob :=
  { agent_id := "ag1", start_time := (i : ℚ), end_time := some ((i : ℚ) + 10),
    status := st, tool := "restic", source := "C:/data",
    destination := "E:/bk" }

/-- A store on which exactly the rule `backup_high_failure_rate` matches:
agent `ag1` is online (last seen 10 s ago at `now = 1000`) with 5 successful
and 5 failed jobs of 10 s each, giving success_rate 50 < 80 and
failed_backups 5 > 3, while avg_duration 10 stays below the 3600 s threshold
of `backup_slow_performance`. -/
def agC6 : Agent :=
  { hostname := "host1", ip_address := "10.0.0.1", os := "Windows",
    agent_id := "ag1", last_seen := 990, enabled := true }

def dbC6 : DB :=
  { agents := [agC6],
    jobs :=
      [mkJobC6 0 "success", mkJobC6 1 "success", mkJobC6 2 "success",
       mkJobC6 3 "success", mkJobC6 4 "success", mkJobC6 5 "failed",
       mkJobC6 6 "failed", mkJobC6 7 "failed", mkJobC6 8 "failed",
       mkJobC6 9 "failed"] }

/-- C6, code evaluated at the failing input: the matching rule
`backup_high_failure_rate` carries remediation priorities
critical, high, critical, whose maximum under low < medium < high < critical
is `critical`; yet the emitted tip carries `high`, because the code takes
Python `max` of the priority *strings* — the lexicographic maximum. -/
theorem tip_priority_is_lexicographic_not_semantic_max :
    (analyze_agent_health dbC6 "ag1" 1000).map (fun t => (t.id, t.priority))
        = [("backup_high_failure_rate", "high")]
    ∧ (TIPS_DATABASE.filter (fun t => t.id == "backup_high_failure_rate")).map
        (fun t => t.solutions.map (fun s => s.priority))
        = [["critical", "high", "critical"]]
    ∧ specMaxPriority ["critical", "high", "critical"] = "critical"
    ∧ priorityRank "high" < priorityRank "critical" := by
  refine ⟨?_, by decide, by decide, by decide⟩
  norm_num +decide [analyze_agent_health, get_agent_stats, get_agent, dbC6,
    agC6, mkJobC6, agent_heartbeat_timeout_minutes, latestStartTime,
    get_agent_performance, windowJobs, addJobToDaily, jobDay, accDay, zeroDay,
    sumTotals, sumSuccess, sumDuration, sumSize, pyRound2, roundHalfEven,
    prepAgentMetrics, agentApplicableTips, TIPS_DATABASE, ruleMatches,
    metricMatches, mvNum, mvIsStr, durationToSeconds, pyStrMax, List.filter,
    List.lookup, List.all]

/-! ## C7: heartbeat -/

lemma find?_updateFirst {α : Type} (p : α → Bool) (f : α → α) :
    ∀ (l : List α) (a : α), l.find? p = some a → p (f a) = true →
      (updateFirst p f l).find? p = some (f a) := by
  intro l
  induction l with
  | nil => intro a h _; simp at h
  | cons x xs ih =>
      intro a h hp
      by_cases hx : p x
      · rw [List.find?_cons_of_pos _ hx] at h
        injection h with h
        subst h
        rw [updateFirst, if_pos hx, List.find?_cons_of_pos _ hp]
      · rw [List.find?_cons_of_neg _ (by simpa using hx)] at h
        rw [updateFirst, if_neg (by simpa using hx),
          List.find?_cons_of_neg _ (by simpa using hx)]
        exact ih a h hp

/-- C7: a heartbeat for an unknown `agent_id` returns `false` and leaves the
store untouched (no exception, no record created or modified); for a known
`agent_id` it returns `true` and the agent's row now carries
`last_seen = now` with all of its other fields and every other table
untouched. -/
theorem heartbeat_unknown_noop_known_sets_last_seen
    (db : DB) (agent_id : String) (now : ℚ) :
    (get_agent db agent_id = none →
      update_agent_heartbeat db agent_id now = (false, db))
    ∧ (∀ a, get_agent db agent_id = some a →
        (update_agent_heartbeat db agent_id now).1 = true
        ∧ get_agent (update_agent_heartbeat db agent_id now).2 agent_id
            = some { a with last_seen := now }
        ∧ (update_agent_heartbeat db agent_id now).2.jobs = db.jobs
        ∧ (update_agent_heartbeat db agent_id now).2.configs = db.configs
        ∧ (update_agent_heartbeat db agent_id now).2.events = db.events
        ∧ (update_agent_heartbeat db agent_id now).2.notifications
            = db.notifications) := by
  constructor
  · intro h
    simp [update_agent_heartbeat, h]
  · intro a h
    have h' : db.agents.find? (fun x => x.agent_id == agent_id) = some a := h
    have hpa : (a.agent_id == agent_id) = true := by
      simpa using List.find?_some h'
    have hstep : (updateFirst (fun x => x.agent_id == agent_id)
        (fun x => { x with last_seen := now }) db.agents).find?
        (fun x => x.agent_id == agent_id) = some { a with last_seen := now } :=
      find?_updateFirst _ _ db.agents a h' (by simpa using hpa)
    refine ⟨?_, ?_, ?_, ?_, ?_, ?_⟩ <;>
      simp [update_agent_heartbeat, get_agent, h', hstep]

/-- A one-agent store used as concrete witness input. -/
def agW : Agent :=
  { hostname := "host1", ip_address := "10.0.0.1", os := "Windows",
    agent_id := "ag1", last_seen := 5, enabled := true }

/-- The store holding exactly `agW`. -/
def dbW : DB := { agents := [agW] }

/-- C7 witness: the unknown branch and the known branch, both on `dbW`. -/
theorem heartbeat_unknown_noop_known_sets_last_seen_witness :
    update_agent_heartbeat dbW "ghost" 42 = (false, dbW)
    ∧ (update_agent_heartbeat dbW "ag1" 42).1 = true
    ∧ get_agent (update_agent_heartbeat dbW "ag1" 42).2 "ag1"
        = some { agW with last_seen := 42 } :=
  ⟨(heartbeat_unknown_noop_known_sets_last_seen dbW "ghost" 42).1 rfl,
   ((heartbeat_unknown_noop_known_sets_last_seen dbW "ag1" 42).2 agW rfl).1,
   ((heartbeat_unknown_noop_known_sets_last_seen dbW "ag1" 42).2 agW
     rfl).2.1⟩

/-! ## C8: idempotent registration -/

lemma countP_updateFirst {α : Type} (p q : α → Bool) (f : α → α)
    (hf : ∀ a, q (f a) = q a) :
    ∀ l : List α, (updateFirst p f l).countP q = l.countP q := by
  intro l
  induction l with
  | nil => rfl
  | cons x xs ih =>
      by_cases hx : p x
      · rw [updateFirst, if_pos hx, List.countP_cons, List.countP_cons, hf]
      · rw [updateFirst, if_neg hx, List.countP_cons, List.countP_cons, ih]

lemma find?_append_of_none {α : Type} (p : α → Bool) (l1 l2 : List α)
    (h : l1.find? p = none) : (l1 ++ l2).find? p = l2.find? p := by
  induction l1 with
  | nil => rfl
  | cons x xs ih =>
      by_cases hx : p x
      · rw [List.find?_cons_of_pos _ hx] at h
        exact absurd h (by simp)
      · rw [List.find?_cons_of_neg _ (by simpa using hx)] at h
        rw [List.cons_append, List.find?_cons_of_neg _ (by simpa using hx)]
        exact ih h

/-- C8: starting from any store holding at most one agent row for the
hostname, registering twice with that hostname (under a monotone clock
`t1 ≤ t2`) returns the same `agent_id` both times, the returned `last_seen`
does not decrease across the two calls, and afterwards at most one agent row
with that hostname exists. -/
theorem register_twice_same_agent_id
    (db : DB) (info1 info2 : AgentInfo) (t1 t2 : ℚ) (id1 id2 : String)
    (hhost : info2.hostname = info1.hostname)
    (huniq : db.agents.countP (fun a => a.hostname == info1.hostname) ≤ 1)
    (ht : t1 ≤ t2) :
    (create_agent (create_agent db info1 t1 id1).2 info2 t2 id2).1.agent_id
        = (create_agent db info1 t1 id1).1.agent_id
    ∧ (create_agent db info1 t1 id1).1.last_seen
        ≤ (create_agent (create_agent db info1 t1 id1).2 info2 t2 id2).1.last_seen
    ∧ (create_agent (create_agent db info1 t1 id1).2 info2 t2 id2).2.agents.countP
        (fun a => a.hostname == info1.hostname) ≤ 1 := by
  cases hfind : get_agent_by_hostname db info1.hostname with
  | some e =>
      have hfind2 : db.agents.find? (fun a => a.hostname == info1.hostname)
          = some e := hfind
      have hpe : (e.hostname == info1.hostname) = true := by
        simpa using List.find?_some hfind2
      have hstep : (updateFirst (fun a => a.hostname == info1.hostname)
          (fun a =>
            { a with
              ip_address := info1.ip_address.getD a.ip_address,
              os := info1.os.getD a.os,
              last_seen := t1 }) db.agents).find?
          (fun a => a.hostname == info1.hostname)
          = some
            { e with
              ip_address := info1.ip_address.getD e.ip_address,
              os := info1.os.getD e.os,
              last_seen := t1 } :=
        find?_updateFirst _ _ db.agents e hfind2 (by simpa using hpe)
      refine ⟨?_, ?_, ?_⟩
      · simp [create_agent, get_agent_by_hostname, hfind2, hhost, hstep]
      · simp [create_agent, get_agent_by_hostname, hfind2, hhost, hstep, ht]
      · simp only [create_agent, get_agent_by_hostname, hfind2, hhost, hstep]
        rw [countP_updateFirst, countP_updateFirst]
        · exact huniq
        · exact fun a => rfl
        · exact fun a => rfl
  | none =>
      have hfind2 : db.agents.find? (fun a => a.hostname == info1.hostname)
          = none := hfind
      have hzero : db.agents.countP (fun a => a.hostname == info1.hostname)
          = 0 := by
        rw [List.countP_eq_zero]
        intro a ha
        exact List.find?_eq_none.mp hfind2 a ha
      have hnewfind : (db.agents ++
          [({ hostname := info1.hostname,
              ip_address := info1.ip_address.getD "",
              os := info1.os.getD "",
              agent_id := id1,
              last_seen := t1,
              enabled := true } : Agent)]).find?
          (fun a => a.hostname == info1.hostname)
          = some
            ({ hostname := info1.hostname,
               ip_address := info1.ip_address.getD "",
               os := info1.os.getD "",
               agent_id := id1,
               last_seen := t1,
               enabled := true } : Agent) := by
        rw [find?_append_of_none _ _ _ hfind2]
        rw [List.find?_cons_of_pos]
        simp
      refine ⟨?_, ?_, ?_⟩
      · simp [create_agent, get_agent_by_hostname, hfind2, hhost,
          create_default_config, hnewfind]
      · simp [create_agent, get_agent_by_hostname, hfind2, hhost,
          create_default_config, hnewfind, ht]
      · simp only [create_agent, get_agent_by_hostname, hfind2, hhost,
          create_default_config, hnewfind]
        rw [countP_updateFirst]
        · rw [List.countP_append, hzero, List.countP_cons]
          simp
        · exact fun a => rfl

/-- Concrete registration input for the C8 witness. -/
def infoW8 : AgentInfo :=
  { hostname := "web01", ip_address := some "10.0.0.2",
    os := some "Windows" }

/-- C8 witness: registering `web01` twice on the empty store. -/
theorem register_twice_same_agent_id_witness :
    (create_agent (create_agent dbEmpty infoW8 0 "id-1").2 infoW8 1
        "id-2").1.agent_id
      = (create_agent dbEmpty infoW8 0 "id-1").1.agent_id
    ∧ (create_agent dbEmpty infoW8 0 "id-1").1.last_seen
        ≤ (create_agent (create_agent dbEmpty infoW8 0 "id-1").2 infoW8 1
            "id-2").1.last_seen
    ∧ (create_agent (create_agent dbEmpty infoW8 0 "id-1").2 infoW8 1
        "id-2").2.agents.countP
        (fun a => a.hostname == infoW8.hostname) ≤ 1 :=
  register_twice_same_agent_id dbEmpty infoW8 infoW8 0 1 "id-1" "id-2" rfl
    (by simp [dbEmpty]) (by norm_num)

/-! ## C9: no jobs, no division -/

/-- C9: for an agent with no recorded jobs at all, the stats report 0 total
backups with success rate 0, and the performance report has success rate 0
and average duration 0 — the guarded divisions never run on a zero
denominator (and over ℚ no NaN exists to propagate). -/
theorem no_jobs_zero_success_rate_and_duration
    (db : DB) (agent_id : String) (now days : ℚ) (a : Agent)
    (hA : get_agent db agent_id = some a)
    (hJ : db.jobs.filter (fun j => j.agent_id == agent_id) = []) :
    (get_agent_stats db agent_id now).map (fun st => st.total_backups)
        = some 0
    ∧ (get_agent_stats db agent_id now).map (fun st => st.success_rate)
        = some 0
    ∧ (get_agent_performance db agent_id now days).success_rate = 0
    ∧ (get_agent_performance db agent_id now days).avg_duration = 0 := by
  have hW : windowJobs db agent_id now days = [] := by
    simp only [windowJobs, List.filter_eq_nil_iff]
    intro j hj
    have h1 := List.filter_eq_nil_iff.mp hJ j hj
    simp only [Bool.and_eq_true, not_and]
    exact fun hcon _ => h1 (by simpa using hcon)
  refine ⟨?_, ?_, ?_, ?_⟩
  · simp [get_agent_stats, hA, hJ]
  · simp [get_agent_stats, hA, hJ]
    norm_num [pyRound2, roundHalfEven]
  · simp [get_agent_performance, hW]
  · simp [get_agent_performance, hW]

/-- C9 witness: the one-agent store `dbW` holds no jobs for `ag1`. -/
theorem no_jobs_zero_success_rate_and_duration_witness :
    (get_agent_stats dbW "ag1" 100).map (fun st => st.total_backups)
        = some 0
    ∧ (get_agent_stats dbW "ag1" 100).map (fun st => st.success_rate)
        = some 0
    ∧ (get_agent_performance dbW "ag1" 100 7).success_rate = 0
    ∧ (get_agent_performance dbW "ag1" 100 7).avg_duration = 0 :=
  no_jobs_zero_success_rate_and_duration dbW "ag1" 100 7 agW rfl rfl

/-! ## C10: the system-tip path always raises -/

/-- C10: `analyze_system_health` resolves `get_system_overview` on the
`agents` module, whose bound names do not include it, so every call raises
`AttributeError` before any rule is evaluated — no system-category tip is
ever produced — and `get_all_applicable_tips`, which runs the system
analysis first, propagates the same exception and never returns normally. -/
theorem analyze_system_health_always_raises (db : DB) (now : ℚ) :
    analyze_system_health db now
      = Except.error
          (.attributeError "app.services.agents" "get_system_overview")
    ∧ get_all_applicable_tips db now
      = Except.error
          (.attributeError "app.services.agents" "get_system_overview") := by
  have h : "get_system_overview" ∉ agentsModuleNames := by decide
  have h1 : analyze_system_health db now
      = Except.error
          (.attributeError "app.services.agents" "get_system_overview") := by
    simp [analyze_system_health, h]
  refine ⟨h1, ?_⟩
  unfold get_all_applicable_tips
  rw [h1]
  rfl
